import Mathlib

/-!
Verification of the slider widget in src/ignis/widgets/scale.py.

The widget composes a range model, an interaction-state flag (the private
dragging attribute, toggled by button, key and scroll events), and a change
notifier that invokes the user callback only while the flag is set.

The constructor stores a fresh Gtk.Adjustment (value 0, lower 0, upper 100,
step_increment 1, page_increment 0, page_size 0) in a plain Python
attribute assignment. PyGObject does not map plain attribute assignment to
GObject property writes (introspected properties need props, set_property
or the dedicated setter), and no set_adjustment call exists anywhere in the
file, so this adjustment is never attached to the underlying GtkRange. The
widget therefore carries TWO range models, and the embedding keeps both:
* the detached constructor adjustment: read and written by the min, max and
  step properties, and written by the value setter
  (self.adjustment.set_value); its own value-changed signal is connected to
  nothing;
* the range's own internal adjustment, lazily created by the toolkit with
  every field 0: read by the value getter (super().get_value()), written by
  the scroll handler (super().set_value(...)), and the only one whose value
  changes emit the widget's value-changed signal, which synchronously runs
  the connected invoke-on-change handler; a drag-driven change also goes
  through this adjustment.

Further modelling conventions:
* Floats carried by the widget are modelled as rationals; the claims only
  involve exact comparisons and additions, never rounding.
* Gtk.Adjustment.set_value clamps the requested value first down to
  upper - page_size, then up to lower (so the lower bound wins on a
  degenerate range), stores it, and emits value-changed exactly when the
  stored value actually changed.
* The user callback receives the widget itself; what the model records is
  the observable trace: the invocations field lists, in order, the value
  the widget reports at each moment the callback is invoked.
-/

namespace Ignis

/-- A toolkit range model: the Gtk.Adjustment fields the widget reads and
writes. Two instances appear in each widget state: the detached adjustment
created by the constructor, and the range's own internal adjustment. -/
structure Adjustment where
  lower : ℚ
  upper : ℚ
  step_increment : ℚ
  page_increment : ℚ
  page_size : ℚ
  value : ℚ
deriving Repr, DecidableEq

/-- Gtk.Adjustment.set_value: the requested value is clamped first down to
upper - page_size, then up to lower (the lower bound wins when the range is
degenerate), and stored. -/
def Adjustment.setValue (a : Adjustment) (v : ℚ) : Adjustment :=
  let hi := a.upper - a.page_size
  let v1 := if v > hi then hi else v
  let c := if v1 < a.lower then a.lower else v1
  { a with value := c }

/-- Gtk.Orientation, restricted to the two values the widget uses. -/
inductive Orientation where
  | horizontal
  | vertical
deriving Repr, DecidableEq

/-- The Gdk event types distinguished by the legacy button-event handler. -/
inductive GdkEventType where
  | buttonPress
  | buttonRelease
  | other
deriving Repr, DecidableEq

/-- The observable state of one Scale widget: the detached constructor
adjustment, the range's own internal adjustment, the private dragging flag,
whether an on-change callback is registered, the orientation, the inverted
flag of the underlying range, and the trace of values reported at each
callback invocation. -/
structure Scale where
  adjustment : Adjustment
  rangeAdjustment : Adjustment
  dragging : Bool
  hasOnChange : Bool
  orientation : Orientation
  inverted : Bool
  invocations : List ℚ
deriving Repr, DecidableEq

/-- value getter: super().get_value(), which reads the range's own internal
adjustment — not the detached constructor adjustment. -/
def Scale.value (s : Scale) : ℚ := s.rangeAdjustment.value

/-- min getter: self.adjustment.props.lower, the detached adjustment. -/
def Scale.min (s : Scale) : ℚ := s.adjustment.lower

/-- max getter: self.adjustment.props.upper, the detached adjustment. -/
def Scale.max (s : Scale) : ℚ := s.adjustment.upper

/-- step getter: self.adjustment.props.step_increment, the detached
adjustment. -/
def Scale.step (s : Scale) : ℚ := s.adjustment.step_increment

/-- min setter: writes the detached adjustment's lower bound directly. -/
def Scale.setMin (s : Scale) (v : ℚ) : Scale :=
  { s with adjustment := { s.adjustment with lower := v } }

/-- max setter: writes the detached adjustment's upper bound directly. -/
def Scale.setMax (s : Scale) (v : ℚ) : Scale :=
  { s with adjustment := { s.adjustment with upper := v } }

/-- step setter: writes the detached adjustment's step increment. -/
def Scale.setStep (s : Scale) (v : ℚ) : Scale :=
  { s with adjustment := { s.adjustment with step_increment := v } }

/-- on_change setter: stores (or clears) the user callback. -/
def Scale.setOnChange (s : Scale) (b : Bool) : Scale := { s with hasOnChange := b }

/-- The private invoke-on-change method: runs the user callback only when
the dragging flag is set and a callback is stored; the trace records the
value the widget reports at that moment. -/
def Scale.invokeOnChange (s : Scale) : Scale :=
  if s.dragging && s.hasOnChange then
    { s with invocations := s.invocations ++ [s.value] }
  else s

/-- self.adjustment.set_value(v): clamps against the detached adjustment's
own bounds and stores there. The detached adjustment is attached to
nothing, so the widget's value-changed signal does not fire and the value
getter does not see the write. -/
def Scale.adjustmentSetValue (s : Scale) (v : ℚ) : Scale :=
  { s with adjustment := s.adjustment.setValue v }

/-- super().set_value(v) (Gtk.Range.set_value), and likewise any
drag-driven change: mutates the range's own internal adjustment, clamped
against that adjustment's bounds, and the widget emits value-changed
exactly when the stored value changed, synchronously running the connected
invoke-on-change handler. -/
def Scale.rangeSetValue (s : Scale) (v : ℚ) : Scale :=
  let a := s.rangeAdjustment.setValue v
  let s1 : Scale := { s with rangeAdjustment := a }
  if a.value ≠ s.rangeAdjustment.value then s1.invokeOnChange else s1

/-- value setter: a None input returns immediately; otherwise, only when
the dragging flag is not set, the new value is applied to the detached
constructor adjustment. -/
def Scale.setValueProp (s : Scale) (v : Option ℚ) : Scale :=
  match v with
  | none => s
  | some v => if !s.dragging then s.adjustmentSetValue v else s

/-- vertical getter: whether the orientation equals vertical. -/
def Scale.vertical (s : Scale) : Bool := s.orientation == Orientation.vertical

/-- vertical setter: maps the boolean back to the orientation enum. -/
def Scale.setVertical (s : Scale) (b : Bool) : Scale :=
  if b then { s with orientation := Orientation.vertical }
  else { s with orientation := Orientation.horizontal }

/-- invert setter: Gtk.Range.set_inverted(self, value), stores the flag. -/
def Scale.setInvert (s : Scale) (b : Bool) : Scale := { s with inverted := b }

/-- invert getter: the source calls Gtk.Range.get_inverted() with no
instance argument, so the read raises TypeError instead of returning the
stored flag; modelled as an error result. -/
def Scale.getInvert (_ : Scale) : Except String Bool :=
  Except.error "TypeError: Gtk.Range.get_inverted called without the instance"

/-- The legacy-controller button handler: a missing current event returns;
button press sets the dragging flag, button release clears it, any other
event type is ignored. -/
def Scale.onButtonEvent (s : Scale) (ev : Option GdkEventType) : Scale :=
  match ev with
  | none => s
  | some GdkEventType.buttonPress => { s with dragging := true }
  | some GdkEventType.buttonRelease => { s with dragging := false }
  | some GdkEventType.other => s

/-- key-pressed handler: sets the dragging flag. -/
def Scale.onKeyPress (s : Scale) : Scale := { s with dragging := true }

/-- key-released handler: clears the dragging flag. -/
def Scale.onKeyRelease (s : Scale) : Scale := { s with dragging := false }

/-- scroll handler: sets the dragging flag, calls super().set_value with
the current value (read from the range's internal adjustment) minus the
step (read from the detached adjustment) when the vertical delta is
positive and plus the step otherwise, then clears the dragging flag. -/
def Scale.onScroll (s : Scale) (dx dy : ℚ) : Scale :=
  let s1 : Scale := { s with dragging := true }
  let s2 := if dy > 0 then s1.rangeSetValue (s1.value - s1.step)
            else s1.rangeSetValue (s1.value + s1.step)
  { s2 with dragging := false }

/-- The widget state right after the primitive construction in
Scale.init, before any configuration option is applied: the detached
adjustment holds the constructor arguments, while the range keeps its own
lazily-created internal adjustment with every field 0. -/
def Scale.initial : Scale where
  adjustment :=
    { lower := 0, upper := 100, step_increment := 1
      page_increment := 0, page_size := 0, value := 0 }
  rangeAdjustment :=
    { lower := 0, upper := 0, step_increment := 0
      page_increment := 0, page_size := 0, value := 0 }
  dragging := false
  hasOnChange := false
  orientation := Orientation.horizontal
  inverted := false
  invocations := []

/-- The constructor configuration surface: every option is optional. -/
structure ScaleConfig where
  vertical : Option Bool := none
  min : Option ℚ := none
  max : Option ℚ := none
  step : Option ℚ := none
  value : Option ℚ := none
  on_change : Bool := false
  invert : Option Bool := none
deriving Repr

/-- Modelled from the spec: BaseWidget.init (ignis.base_widget, a
collaborator of this file that is not under src/) applies the construction
keyword options as ordinary property writes after primitive construction.
Each option present in the configuration goes through the corresponding
setter defined above, on the initial state. -/
def Scale.construct (cfg : ScaleConfig) : Scale :=
  let s := Scale.initial
  let s := match cfg.vertical with | none => s | some b => s.setVertical b
  let s := match cfg.min with | none => s | some v => s.setMin v
  let s := match cfg.max with | none => s | some v => s.setMax v
  let s := match cfg.step with | none => s | some v => s.setStep v
  let s := s.setValueProp cfg.value
  let s := if cfg.on_change then s.setOnChange true else s
  let s := match cfg.invert with | none => s | some b => s.setInvert b
  s

/-- The concrete scenario of the spec, up to the button release: construct
with min 0, max 100, step 1, value 20 and a registered callback, deliver a
button press, set the value to 55 through the underlying range model (a
drag-driven change goes through the range's own internal adjustment),
deliver a button release. -/
def scenarioAfterRelease : Scale :=
  (((Scale.construct
      { min := some 0
        max := some 100
        step := some 1
        value := some 20
        on_change := true }).onButtonEvent
      (some GdkEventType.buttonPress)).rangeSetValue
      55).onButtonEvent
    (some GdkEventType.buttonRelease)

/-- The same scenario continued by the programmatic write of 10 through the
value property. -/
def scenarioAfterWrite : Scale := scenarioAfterRelease.setValueProp (some 10)

/-! ### Basic lemmas about the embedded operations -/

/-- Full characterisation of a range-value mutation: the range's internal
adjustment is clamped and stored, and the invocation trace grows by the new
value exactly when the flag is set, a callback is stored, and the stored
value actually changed. -/
theorem Scale.rangeSetValue_spec (s : Scale) (v : ℚ) :
    s.rangeSetValue v =
      { s with
        rangeAdjustment := s.rangeAdjustment.setValue v
        invocations :=
          if s.dragging = true ∧ s.hasOnChange = true ∧
              (s.rangeAdjustment.setValue v).value ≠ s.rangeAdjustment.value
          then s.invocations ++ [(s.rangeAdjustment.setValue v).value]
          else s.invocations } := by
  unfold Scale.rangeSetValue Scale.invokeOnChange Scale.value
  by_cases h : (s.rangeAdjustment.setValue v).value = s.rangeAdjustment.value <;>
    by_cases hd : s.dragging <;>
      by_cases hc : s.hasOnChange <;>
        simp [h, hd, hc]

theorem Scale.setValueProp_dragging (s : Scale) (v : Option ℚ) :
    (s.setValueProp v).dragging = s.dragging := by
  unfold Scale.setValueProp
  cases v with
  | none => rfl
  | some v =>
      simp only
      split <;> rfl

theorem Scale.setValueProp_invocations (s : Scale) (v : Option ℚ) :
    (s.setValueProp v).invocations = s.invocations := by
  unfold Scale.setValueProp
  cases v with
  | none => rfl
  | some v =>
      simp only
      split <;> rfl

/-- Full characterisation of the scroll handler. -/
theorem Scale.onScroll_spec (s : Scale) (dx dy : ℚ) :
    s.onScroll dx dy =
      (let w := if dy > 0 then s.value - s.step else s.value + s.step
      { s with
        dragging := false
        rangeAdjustment := s.rangeAdjustment.setValue w
        invocations :=
          if s.hasOnChange = true ∧
              (s.rangeAdjustment.setValue w).value ≠ s.rangeAdjustment.value
          then s.invocations ++ [(s.rangeAdjustment.setValue w).value]
          else s.invocations }) := by
  unfold Scale.onScroll
  by_cases h : dy > 0 <;>
    simp only [h, if_true, if_false, Scale.rangeSetValue_spec] <;>
    simp [Scale.value, Scale.step]

theorem Scale.onScroll_dragging (s : Scale) (dx dy : ℚ) :
    (s.onScroll dx dy).dragging = false := by
  rw [Scale.onScroll_spec]

/-! ### Claim theorems -/

/-- C1: in the concrete scenario — construct with min 0, max 100, step 1,
value 20 and a callback registered; deliver a button press; set the value
to 55 through the underlying range model; deliver a button release; then
programmatically assign 10 — the callback is never invoked and the value
getter reports 0 throughout: the drag-driven change clamps to the range's
own all-zero internal adjustment and so never happens, and the programmatic
writes land in the detached constructor adjustment, invisible to the
getter and to the value-changed signal. -/
theorem scenario_callback_never_fires :
    scenarioAfterRelease.invocations = [] ∧
    scenarioAfterRelease.value = 0 ∧
    scenarioAfterWrite.invocations = [] ∧
    scenarioAfterWrite.value = 0 ∧
    scenarioAfterWrite.adjustment.value = 10 := by
  norm_num [scenarioAfterRelease, scenarioAfterWrite, Scale.construct,
    Scale.initial, Scale.setMin, Scale.setMax, Scale.setStep,
    Scale.setOnChange, Scale.setValueProp, Scale.adjustmentSetValue,
    Scale.rangeSetValue, Scale.invokeOnChange, Adjustment.setValue,
    Scale.onButtonEvent, Scale.value]

/-- C2: writing an in-bounds value through the value property while idle is
invisible to the value getter: on a freshly constructed widget the write of
42 lands in the detached constructor adjustment, while the getter reads the
range's own internal adjustment and still reports 0, not 42. -/
theorem value_write_invisible_to_getter :
    ((Scale.construct {}).setValueProp (some 42)).value = 0 ∧
    ((Scale.construct {}).setValueProp (some 42)).adjustment.value = 42 := by
  norm_num [Scale.construct, Scale.initial, Scale.setValueProp,
    Scale.adjustmentSetValue, Adjustment.setValue, Scale.value]

/-- C3: a whole sequence of programmatic writes to the value property,
performed while the dragging flag is false, never invokes the callback and
leaves the flag false. -/
theorem programmatic_writes_never_invoke (vs : List (Option ℚ)) (s : Scale)
    (hd : s.dragging = false) :
    (vs.foldl Scale.setValueProp s).invocations = s.invocations ∧
    (vs.foldl Scale.setValueProp s).dragging = false := by
  induction vs generalizing s with
  | nil => exact ⟨rfl, hd⟩
  | cons v vs ih =>
      have h1 : (s.setValueProp v).dragging = false := by
        rw [Scale.setValueProp_dragging]
        exact hd
      have h3 := ih (s.setValueProp v) h1
      simp only [List.foldl_cons]
      exact ⟨h3.1.trans (Scale.setValueProp_invocations s v), h3.2⟩

theorem programmatic_writes_never_invoke_witness :
    (([some 3, none, some 200, some (-5)] : List (Option ℚ)).foldl
        Scale.setValueProp Scale.initial).invocations = [] ∧
    (([some 3, none, some 200, some (-5)] : List (Option ℚ)).foldl
        Scale.setValueProp Scale.initial).dragging = false :=
  programmatic_writes_never_invoke [some 3, none, some 200, some (-5)]
    Scale.initial rfl

/-- C4: a scroll tick never moves the value by a step: super().set_value
clamps against the range's own all-zero internal adjustment, never against
the property-visible min, max and step bounds, so on a freshly constructed
widget with a callback registered the value stays 0 for either scroll
direction and no callback fires; only the flag handling (cleared after the
tick) behaves as claimed. -/
theorem scroll_tick_never_moves_value :
    ((Scale.construct { on_change := true }).onScroll 0 (-1)).value = 0 ∧
    ((Scale.construct { on_change := true }).onScroll 0 1).value = 0 ∧
    ((Scale.construct { on_change := true }).onScroll 0 (-1)).invocations = [] ∧
    ((Scale.construct { on_change := true }).onScroll 0 (-1)).dragging = false := by
  norm_num [Scale.construct, Scale.initial, Scale.setOnChange,
    Scale.setValueProp, Scale.onScroll, Scale.rangeSetValue,
    Scale.invokeOnChange, Adjustment.setValue, Scale.value, Scale.step]

/-- C5: the set-then-get round trip holds for the vertical property, but
not for invert: the invert setter stores the flag, yet the invert getter
calls Gtk.Range.get_inverted with no instance argument and raises
TypeError instead of returning the stored flag. -/
theorem invert_getter_raises :
    (Scale.initial.setVertical true).vertical = true ∧
    (Scale.initial.setVertical false).vertical = false ∧
    (Scale.initial.setInvert true).inverted = true ∧
    Scale.getInvert (Scale.initial.setInvert true) =
      Except.error "TypeError: Gtk.Range.get_inverted called without the instance" :=
  ⟨rfl, rfl, rfl, rfl⟩

/-- C6: while the dragging flag is true, assigning any value through the
value property is a complete no-op: the entire widget state, both range
models included, is unchanged. -/
theorem value_setter_noop_while_dragging (s : Scale) (v : ℚ)
    (hd : s.dragging = true) :
    s.setValueProp (some v) = s := by
  unfold Scale.setValueProp
  simp [hd]

theorem value_setter_noop_while_dragging_witness :
    Scale.initial.onKeyPress.setValueProp (some 77) = Scale.initial.onKeyPress :=
  value_setter_noop_while_dragging Scale.initial.onKeyPress 77 rfl

/-- C7: assigning a None input to the value property is ignored in every
state: no error, value unchanged, no callback invocation — the state is
untouched. -/
theorem value_setter_none_noop (s : Scale) : s.setValueProp none = s := rfl

/-- C8: right after construction with no configuration options the
property getters report value 0, min 0, max 100, step 1 (min, max and step
from the detached constructor adjustment, the value from the range's own
zero internal adjustment), and the dragging flag is false. -/
theorem construct_defaults :
    (Scale.construct {}).value = 0 ∧
    (Scale.construct {}).min = 0 ∧
    (Scale.construct {}).max = 100 ∧
    (Scale.construct {}).step = 1 ∧
    (Scale.construct {}).dragging = false :=
  ⟨rfl, rfl, rfl, rfl, rfl⟩

/-- C9 counterexample: on a freshly constructed widget (step 1) a scroll
tick with vertical delta exactly 0 does not increase the value by one
step: the value stays 0 instead of becoming 1, because super().set_value
clamps against the range's own zero-bounded internal adjustment. -/
theorem scroll_zero_delta_no_increment :
    ((Scale.construct {}).onScroll 0 0).value ≠
      (Scale.construct {}).value + (Scale.construct {}).step := by
  norm_num [Scale.construct, Scale.initial, Scale.setValueProp,
    Scale.onScroll, Scale.rangeSetValue, Scale.invokeOnChange,
    Adjustment.setValue, Scale.value, Scale.step]

/-- C9 as amended: a scroll tick whose vertical delta is exactly zero takes
the increment branch — the resulting state is identical to the one a
negative delta produces — but the value is nevertheless left unchanged on
the widget as constructed, because the set_value call clamps against the
range's own zero-bounded internal adjustment. -/
theorem scroll_zero_delta_same_as_negative :
    (∀ (s : Scale) (dx : ℚ), s.onScroll dx 0 = s.onScroll dx (-1)) ∧
    ((Scale.construct {}).onScroll 0 0).value = (Scale.construct {}).value := by
  constructor
  · intro s dx
    unfold Scale.onScroll
    norm_num
  · norm_num [Scale.construct, Scale.initial, Scale.setValueProp,
      Scale.onScroll, Scale.rangeSetValue, Scale.invokeOnChange,
      Adjustment.setValue, Scale.value, Scale.step]

/-- C10: after the scroll handler returns the dragging flag is false no
matter what it was before the tick; a subsequent drag-driven mutation of
the range's adjustment therefore invokes no callback, while a new button
press sets the flag again. -/
theorem scroll_resets_dragging (s : Scale) (dx dy v : ℚ) :
    (s.onScroll dx dy).dragging = false ∧
    ((s.onScroll dx dy).rangeSetValue v).invocations =
      (s.onScroll dx dy).invocations ∧
    ((s.onScroll dx dy).onButtonEvent (some GdkEventType.buttonPress)).dragging
      = true := by
  refine ⟨Scale.onScroll_dragging s dx dy, ?_, rfl⟩
  rw [Scale.rangeSetValue_spec]
  have hd := Scale.onScroll_dragging s dx dy
  simp [hd]

end Ignis
